import Mathlib

/-!
Shallow embedding of the KAYA-MD session manager (`src/index.js`, with the
single-file-auth variant in `src/unnamed/part_000`).  The program keeps three
ambient mutable variables (`latestQRCodeDataUrl`, `qrLastUpdated`,
`connectionStatus`), registers a `connection.update` handler that renders QR
pairing challenges, mirrors connection state, and classifies disconnect
reasons into restart policies, and wraps socket startup (`startSocket` /
`startSock`) in a retry loop.  Fallible external calls (QR encoding,
`fs.rmSync` / `fs.unlinkSync`, `fetchLatestBaileysVersion`,
`useMultiFileAuthState`, `makeWASocket`) are modelled by explicit outcome
parameters of type `Except Unit _` or `Bool`; scheduled timers and filesystem
deletions are reified as an effect list.
-/

namespace Chrisbot

/-- Baileys `DisconnectReason.badSession` (invalid or expired session). -/
def DisconnectReason.badSession : Nat := 500

/-- Baileys `DisconnectReason.connectionClosed`. -/
def DisconnectReason.connectionClosed : Nat := 428

/-- Baileys `DisconnectReason.connectionLost`. -/
def DisconnectReason.connectionLost : Nat := 408

/-- Baileys `DisconnectReason.connectionReplaced`. -/
def DisconnectReason.connectionReplaced : Nat := 440

/-- Baileys `DisconnectReason.loggedOut`. -/
def DisconnectReason.loggedOut : Nat := 401

/-- Baileys `DisconnectReason.restartRequired`. -/
def DisconnectReason.restartRequired : Nat := 515

/-- Baileys `DisconnectReason.multideviceMismatch`. -/
def DisconnectReason.multideviceMismatch : Nat := 411

/-- The ambient mutable state of `index.js`: the three module-level variables
(lines 35-37) plus the existence of the credential store on disk
(`AUTH_DIR`, populated by `useMultiFileAuthState`). -/
structure GlobalState where
  latestQRCodeDataUrl : Option String
  qrLastUpdated : Option String
  connectionStatus : String
  authDirExists : Bool
deriving Repr, DecidableEq

/-- The initial module state: `latestQRCodeDataUrl = null`,
`qrLastUpdated = null`, `connectionStatus = 'starting'`; whether the
credential store already exists on disk is a startup parameter. -/
def initialState (authDirExists : Bool) : GlobalState :=
  { latestQRCodeDataUrl := none
    qrLastUpdated := none
    connectionStatus := "starting"
    authDirExists := authDirExists }

/-- The `lastDisconnect.error` object: `error.output?.statusCode` and
`error.statusCode`, each possibly absent. -/
structure DisconnectError where
  outputStatusCode : Option Nat
  statusCode : Option Nat
deriving Repr, DecidableEq

/-- The `lastDisconnect` object carried by a `connection.update` event; its
`error` field may be absent. -/
structure LastDisconnect where
  error : Option DisconnectError
deriving Repr, DecidableEq

/-- A `connection.update` event payload:
`const { connection, lastDisconnect, qr } = update`. -/
structure ConnectionUpdate where
  connection : Option String
  lastDisconnect : Option LastDisconnect
  qr : Option String
deriving Repr, DecidableEq

/-- JavaScript `a || b` on two optional numeric status codes: `a` wins unless
it is falsy (absent, i.e. `undefined`, or the number `0`). -/
def jsOrCode (a b : Option Nat) : Option Nat :=
  match a with
  | some n => if n = 0 then b else some n
  | none => b

/-- `const code = lastDisconnect?.error?.output?.statusCode ||
lastDisconnect?.error?.statusCode` (line 142 of `index.js`), given that the
error object is present. -/
def reasonCode (e : DisconnectError) : Option Nat :=
  jsOrCode e.outputStatusCode e.statusCode

/-- Observable side effects of one handler invocation: running the
credential-store deletion block, and `setTimeout(() => startSocket(), d)`. -/
inductive Effect where
  | destroyCreds : Effect
  | scheduleRestart : Nat → Effect
deriving Repr, DecidableEq

/-- Body of the deletion try-block in `index.js` (lines 148-150):
`if (fs.existsSync(AUTH_DIR)) { fs.rmSync(AUTH_DIR, ...) }`.  `rmThrows`
models `fs.rmSync` raising; when the directory is absent, `rmSync` is never
called, so no failure can arise.  Returns the new existence of the store or
an error. -/
def rmAuthDirRaw (rmThrows : Bool) (authDirExists : Bool) : Except Unit Bool :=
  if authDirExists then
    if rmThrows then Except.error () else Except.ok false
  else
    Except.ok authDirExists

/-- The whole deletion block of `index.js` (lines 146-153): the try-body
wrapped in `catch (e) { logger.error(...) }`.  Returns the new existence of
the store and whether a deletion failure was logged; it never propagates a
failure. -/
def destroyCredStore (rmThrows : Bool) (authDirExists : Bool) : Bool × Bool :=
  match rmAuthDirRaw rmThrows authDirExists with
  | Except.ok e => (e, false)
  | Except.error _ => (authDirExists, true)

/-- Body of the deletion try-block in `part_000` (line 144):
`fs.unlinkSync(AUTH_FILE)` with no existence check; `unlinkSync` on an
absent file raises ENOENT. -/
def unlinkAuthFileRaw (unlinkThrows : Bool) (authFileExists : Bool) :
    Except Unit Bool :=
  if authFileExists then
    if unlinkThrows then Except.error () else Except.ok false
  else
    Except.error ()

/-- The deletion block of `part_000` (line 144):
`try { fs.unlinkSync(AUTH_FILE); } catch (e) { logger.error(...); }`.
Returns the new existence of the store and whether a failure was logged; it
never propagates a failure. -/
def destroyCredStoreSingle (unlinkThrows : Bool) (authFileExists : Bool) :
    Bool × Bool :=
  match unlinkAuthFileRaw unlinkThrows authFileExists with
  | Except.ok e => (e, false)
  | Except.error _ => (authFileExists, true)

/-- The `if (qr) { ... }` block of the `connection.update` handler
(lines 116-125 of `index.js`): encode the challenge to a data URL inside its
own try-catch; on success store it with a fresh timestamp and set the status
to `qr-generated`; on failure log and leave every variable unchanged.
`qrEncode` models `QRCode.toDataURL`, `now` the current
`new Date().toISOString()`. -/
def qrStep (qrEncode : String → Except Unit String) (now : String)
    (u : ConnectionUpdate) (s : GlobalState) : GlobalState :=
  match u.qr with
  | none => s
  | some q =>
    match qrEncode q with
    | Except.ok dataUrl =>
        { s with latestQRCodeDataUrl := some dataUrl
                 qrLastUpdated := some now
                 connectionStatus := "qr-generated" }
    | Except.error _ => s

/-- The `if (connection) { ... }` block (lines 127-136 of `index.js`): mirror
the reported connection state into `connectionStatus`; when the connection is
`open`, clear the QR data URL and refresh `qrLastUpdated`. -/
def connStep (now : String) (u : ConnectionUpdate) (s : GlobalState) :
    GlobalState :=
  match u.connection with
  | none => s
  | some c =>
    let s1 := { s with connectionStatus := c }
    if c = "open" then
      { s1 with latestQRCodeDataUrl := none, qrLastUpdated := some now }
    else
      s1

/-- The `if (lastDisconnect && lastDisconnect.error) { ... }` block
(lines 138-161 of `index.js`): derive the status code and classify it.
`badSession` or `loggedOut` run the credential deletion block and schedule a
restart in 2000 ms; `restartRequired` or `connectionClosed` schedule a
restart in 2000 ms; anything else schedules a restart in 5000 ms. -/
def disconnectStep (rmThrows : Bool) (u : ConnectionUpdate) (s : GlobalState) :
    GlobalState × List Effect :=
  match u.lastDisconnect with
  | none => (s, [])
  | some ld =>
    match ld.error with
    | none => (s, [])
    | some e =>
      let code := reasonCode e
      if code = some DisconnectReason.badSession ∨
          code = some DisconnectReason.loggedOut then
        let d := destroyCredStore rmThrows s.authDirExists
        ({ s with authDirExists := d.1 },
          [Effect.destroyCreds, Effect.scheduleRestart 2000])
      else if code = some DisconnectReason.restartRequired ∨
          code = some DisconnectReason.connectionClosed then
        (s, [Effect.scheduleRestart 2000])
      else
        (s, [Effect.scheduleRestart 5000])

/-- The body of the `connection.update` handler (inside its outer try),
threading the three blocks in source order.  Every fallible call it contains
is already guarded by an inner catch, so the body itself always returns
normally. -/
def connectionUpdateRaw (qrEncode : String → Except Unit String)
    (rmThrows : Bool) (now : String) (u : ConnectionUpdate) (s : GlobalState) :
    Except Unit (GlobalState × List Effect) :=
  let s1 := qrStep qrEncode now u s
  let s2 := connStep now u s1
  Except.ok (disconnectStep rmThrows u s2)

/-- The registered `connection.update` listener: the body wrapped in the
outer `try { ... } catch (e) { logger.error(...) }` (lines 112-166 of
`index.js`).  A total function: no failure escapes it. -/
def connectionUpdateHandler (qrEncode : String → Except Unit String)
    (rmThrows : Bool) (now : String) (u : ConnectionUpdate) (s : GlobalState) :
    GlobalState × List Effect :=
  match connectionUpdateRaw qrEncode rmThrows now u s with
  | Except.ok r => r
  | Except.error _ => (s, [])

/-- Run a sequence of `connection.update` events (each paired with its
timestamp) through the handler, accumulating the ambient state. -/
def runUpdates (qrEncode : String → Except Unit String) (rmThrows : Bool)
    (events : List (String × ConnectionUpdate)) (s : GlobalState) :
    GlobalState :=
  events.foldl (fun st p => (connectionUpdateHandler qrEncode rmThrows p.1 p.2 st).1) s

/-- The hardcoded fallback protocol version of `startSocket`
(line 77 of `index.js`): `let version = [2, 2204, 13]`. -/
def fallbackVersion : List Nat := [2, 2204, 13]

/-- The version-resolution step (lines 77-84 of `index.js`): try
`fetchLatestBaileysVersion()`; keep `fetched.version` when the call returns a
truthy object whose `version` is an array (`Except.ok (some v)`); on a
non-array result (`Except.ok none`) or a thrown error (`Except.error`), the
caught branch logs a warning and the fallback stands. -/
def resolveVersion (fetchResult : Except Unit (Option (List Nat))) :
    List Nat :=
  match fetchResult with
  | Except.ok (some v) => v
  | Except.ok none => fallbackVersion
  | Except.error _ => fallbackVersion

/-- Outcomes of the external calls made inside `startSocket`:
the version fetch, `useMultiFileAuthState`, and `makeWASocket`. -/
structure StartEnv where
  fetchResult : Except Unit (Option (List Nat))
  authLoadThrows : Bool
  socketThrows : Bool
deriving Repr

/-- Result of one `startSocket()` call: either a socket was constructed with
the given protocol version and the listeners were subscribed, or the outer
catch fired, logged, and scheduled a retry. -/
inductive StartOutcome where
  | started : List Nat → StartOutcome
  | retryScheduled : StartOutcome
deriving Repr, DecidableEq

/-- `startSocket()` (lines 74-192 of `index.js`): set the status to
`fetching-baileys-version`, resolve the version (fallback on failure, inside
its own try), load the credential store, set the status to `starting-socket`,
construct the socket.  A throw from credential loading or socket construction
reaches the outer catch, which logs and schedules `startSocket` again in
5000 ms. -/
def startSocket (env : StartEnv) (s : GlobalState) :
    GlobalState × StartOutcome × List Effect :=
  let s1 := { s with connectionStatus := "fetching-baileys-version" }
  let version := resolveVersion env.fetchResult
  if env.authLoadThrows then
    (s1, StartOutcome.retryScheduled, [Effect.scheduleRestart 5000])
  else
    let s2 := { s1 with connectionStatus := "starting-socket" }
    if env.socketThrows then
      (s2, StartOutcome.retryScheduled, [Effect.scheduleRestart 5000])
    else
      (s2, StartOutcome.started version, [])

/-- The registered `creds.update` listener: `sock.ev.on('creds.update',
saveCreds)` (line 98 of `index.js`; `saveState` at line 110 of `part_000`).
The persistence callback is passed directly, with no wrapper and no catch,
so its outcome — including a failure — propagates unchanged. -/
def credsUpdateListener (saveResult : Except Unit Unit) : Except Unit Unit :=
  saveResult

/-- Module-level credential load of `part_000` (line 79):
`const { state, saveState } = useSingleFileAuthState(AUTH_FILE)` executes at
module scope, outside any try, so its outcome propagates unchanged. -/
def moduleInitAuthLoad (loadResult : Except Unit Unit) : Except Unit Unit :=
  loadResult

/-- Body of the `messages.upsert` listener (lines 170-180 of `index.js`);
`bodyThrows` models any exception raised while iterating the messages. -/
def messagesUpsertRaw (bodyThrows : Bool) : Except Unit Unit :=
  if bodyThrows then Except.error () else Except.ok ()

/-- The registered `messages.upsert` listener: the body wrapped in
`try { ... } catch (err) { logger.error(...) }`.  A total function: no
failure escapes it. -/
def messagesUpsertHandler (bodyThrows : Bool) : Except Unit Unit :=
  match messagesUpsertRaw bodyThrows with
  | Except.ok _ => Except.ok ()
  | Except.error _ => Except.ok ()

/-! ### Helper lemmas -/

theorem connectionUpdateHandler_eq (qrEncode : String → Except Unit String)
    (rmThrows : Bool) (now : String) (u : ConnectionUpdate) (s : GlobalState) :
    connectionUpdateHandler qrEncode rmThrows now u s =
      disconnectStep rmThrows u (connStep now u (qrStep qrEncode now u s)) := rfl

theorem qrStep_authDirExists (qrEncode : String → Except Unit String)
    (now : String) (u : ConnectionUpdate) (s : GlobalState) :
    (qrStep qrEncode now u s).authDirExists = s.authDirExists := by
  unfold qrStep
  split
  · rfl
  · split <;> rfl

theorem connStep_authDirExists (now : String) (u : ConnectionUpdate)
    (s : GlobalState) :
    (connStep now u s).authDirExists = s.authDirExists := by
  unfold connStep
  split
  · rfl
  · dsimp only
    split <;> rfl

theorem disconnectStep_badSession (rmThrows : Bool) (u : ConnectionUpdate)
    (s : GlobalState) (ld : LastDisconnect) (e : DisconnectError)
    (h1 : u.lastDisconnect = some ld) (h2 : ld.error = some e)
    (h3 : reasonCode e = some DisconnectReason.badSession ∨
          reasonCode e = some DisconnectReason.loggedOut) :
    disconnectStep rmThrows u s =
      ({ s with authDirExists := (destroyCredStore rmThrows s.authDirExists).1 },
        [Effect.destroyCreds, Effect.scheduleRestart 2000]) := by
  unfold disconnectStep
  rw [h1]
  dsimp only
  rw [h2]
  dsimp only
  rw [if_pos h3]

theorem disconnectStep_restart (rmThrows : Bool) (u : ConnectionUpdate)
    (s : GlobalState) (ld : LastDisconnect) (e : DisconnectError)
    (h1 : u.lastDisconnect = some ld) (h2 : ld.error = some e)
    (h3 : reasonCode e = some DisconnectReason.restartRequired ∨
          reasonCode e = some DisconnectReason.connectionClosed) :
    disconnectStep rmThrows u s = (s, [Effect.scheduleRestart 2000]) := by
  unfold disconnectStep
  rw [h1]
  dsimp only
  rw [h2]
  dsimp only
  rcases h3 with h | h <;>
    rw [h] <;>
    simp [DisconnectReason.badSession, DisconnectReason.loggedOut,
      DisconnectReason.restartRequired, DisconnectReason.connectionClosed]

theorem disconnectStep_other (rmThrows : Bool) (u : ConnectionUpdate)
    (s : GlobalState) (ld : LastDisconnect) (e : DisconnectError)
    (h1 : u.lastDisconnect = some ld) (h2 : ld.error = some e)
    (h3 : reasonCode e ≠ some DisconnectReason.badSession)
    (h4 : reasonCode e ≠ some DisconnectReason.loggedOut)
    (h5 : reasonCode e ≠ some DisconnectReason.restartRequired)
    (h6 : reasonCode e ≠ some DisconnectReason.connectionClosed) :
    disconnectStep rmThrows u s = (s, [Effect.scheduleRestart 5000]) := by
  unfold disconnectStep
  rw [h1]
  dsimp only
  rw [h2]
  dsimp only
  rw [if_neg (by rintro (h | h) <;> [exact h3 h; exact h4 h]),
    if_neg (by rintro (h | h) <;> [exact h5 h; exact h6 h])]

theorem destroyCredStore_noThrow (b : Bool) :
    destroyCredStore false b = (false, false) := by
  cases b <;> rfl

theorem disconnectStep_ui (rmThrows : Bool) (u : ConnectionUpdate)
    (s : GlobalState) :
    (disconnectStep rmThrows u s).1.latestQRCodeDataUrl
        = s.latestQRCodeDataUrl ∧
    (disconnectStep rmThrows u s).1.qrLastUpdated = s.qrLastUpdated ∧
    (disconnectStep rmThrows u s).1.connectionStatus = s.connectionStatus := by
  unfold disconnectStep
  split
  · exact ⟨rfl, rfl, rfl⟩
  · split
    · exact ⟨rfl, rfl, rfl⟩
    · dsimp only
      split
      · exact ⟨rfl, rfl, rfl⟩
      · split <;> exact ⟨rfl, rfl, rfl⟩

theorem qrStep_none (qrEncode : String → Except Unit String) (now : String)
    (u : ConnectionUpdate) (s : GlobalState) (hq : u.qr = none) :
    qrStep qrEncode now u s = s := by
  unfold qrStep
  rw [hq]

theorem qrStep_ok (qrEncode : String → Except Unit String) (now : String)
    (u : ConnectionUpdate) (s : GlobalState) (q d : String)
    (hq : u.qr = some q) (hok : qrEncode q = Except.ok d) :
    qrStep qrEncode now u s =
      { s with latestQRCodeDataUrl := some d
               qrLastUpdated := some now
               connectionStatus := "qr-generated" } := by
  unfold qrStep
  rw [hq]
  dsimp only
  rw [hok]

theorem qrStep_err (qrEncode : String → Except Unit String) (now : String)
    (u : ConnectionUpdate) (s : GlobalState) (q : String)
    (hq : u.qr = some q) (herr : qrEncode q = Except.error ()) :
    qrStep qrEncode now u s = s := by
  unfold qrStep
  rw [hq]
  dsimp only
  rw [herr]

theorem connStep_none (now : String) (u : ConnectionUpdate) (s : GlobalState)
    (hc : u.connection = none) :
    connStep now u s = s := by
  unfold connStep
  rw [hc]

theorem connStep_open (now : String) (u : ConnectionUpdate) (s : GlobalState)
    (hc : u.connection = some "open") :
    connStep now u s =
      { s with latestQRCodeDataUrl := none
               qrLastUpdated := some now
               connectionStatus := "open" } := by
  unfold connStep
  rw [hc]
  dsimp only
  rw [if_pos rfl]

theorem connStep_notOpen (now : String) (u : ConnectionUpdate)
    (s : GlobalState) (c : String)
    (hc : u.connection = some c) (hco : c ≠ "open") :
    connStep now u s = { s with connectionStatus := c } := by
  unfold connStep
  rw [hc]
  dsimp only
  rw [if_neg hco]

theorem runUpdates_cons (qrEncode : String → Except Unit String)
    (rmThrows : Bool) (p : String × ConnectionUpdate)
    (rest : List (String × ConnectionUpdate)) (s : GlobalState) :
    runUpdates qrEncode rmThrows (p :: rest) s =
      runUpdates qrEncode rmThrows rest
        ((connectionUpdateHandler qrEncode rmThrows p.1 p.2 s).1) := rfl

/-! ### Claim theorems -/

/-- Claim C1: for every disconnect event whose reason code is `badSession` or
`loggedOut`, the handler runs the credential-store deletion block exactly once
and schedules exactly one restart of the start function after 2000 ms; when
the deletion does not throw, the credential store is absent afterwards. -/
theorem disconnect_badSession_or_loggedOut_deletes_once_and_restarts_2s
    (qrEncode : String → Except Unit String) (rmThrows : Bool) (now : String)
    (u : ConnectionUpdate) (s : GlobalState) (ld : LastDisconnect)
    (e : DisconnectError)
    (h1 : u.lastDisconnect = some ld) (h2 : ld.error = some e)
    (h3 : reasonCode e = some DisconnectReason.badSession ∨
          reasonCode e = some DisconnectReason.loggedOut) :
    (connectionUpdateHandler qrEncode rmThrows now u s).2.count
        Effect.destroyCreds = 1 ∧
    (connectionUpdateHandler qrEncode rmThrows now u s).2.count
        (Effect.scheduleRestart 2000) = 1 ∧
    (connectionUpdateHandler qrEncode rmThrows now u s).2 =
        [Effect.destroyCreds, Effect.scheduleRestart 2000] ∧
    (rmThrows = false →
      (connectionUpdateHandler qrEncode rmThrows now u s).1.authDirExists
        = false) := by
  rw [connectionUpdateHandler_eq,
    disconnectStep_badSession rmThrows u _ ld e h1 h2 h3]
  refine ⟨rfl, rfl, rfl, ?_⟩
  intro hrm
  subst hrm
  simp [destroyCredStore_noThrow]

/-- Witness for claim C1 at a concrete `loggedOut` (401) disconnect. -/
theorem disconnect_badSession_or_loggedOut_witness :
    (connectionUpdateHandler (fun q => Except.ok q) false "t0"
        ⟨none, some ⟨some ⟨none, some 401⟩⟩, none⟩ (initialState true)).2 =
      [Effect.destroyCreds, Effect.scheduleRestart 2000] :=
  (disconnect_badSession_or_loggedOut_deletes_once_and_restarts_2s
    (fun q => Except.ok q) false "t0"
    ⟨none, some ⟨some ⟨none, some 401⟩⟩, none⟩ (initialState true)
    ⟨some ⟨none, some 401⟩⟩ ⟨none, some 401⟩ rfl rfl (Or.inr rfl)).2.2.1

/-- Claim C2: for every disconnect event whose reason code is
`restartRequired` or `connectionClosed`, the handler schedules exactly one
restart after 2000 ms, never runs the credential deletion block, and leaves
the credential store untouched. -/
theorem disconnect_restart_codes_restart_2s_creds_untouched
    (qrEncode : String → Except Unit String) (rmThrows : Bool) (now : String)
    (u : ConnectionUpdate) (s : GlobalState) (ld : LastDisconnect)
    (e : DisconnectError)
    (h1 : u.lastDisconnect = some ld) (h2 : ld.error = some e)
    (h3 : reasonCode e = some DisconnectReason.restartRequired ∨
          reasonCode e = some DisconnectReason.connectionClosed) :
    (connectionUpdateHandler qrEncode rmThrows now u s).2 =
        [Effect.scheduleRestart 2000] ∧
    (connectionUpdateHandler qrEncode rmThrows now u s).2.count
        Effect.destroyCreds = 0 ∧
    (connectionUpdateHandler qrEncode rmThrows now u s).1.authDirExists
        = s.authDirExists := by
  rw [connectionUpdateHandler_eq,
    disconnectStep_restart rmThrows u _ ld e h1 h2 h3]
  exact ⟨rfl, rfl, by rw [connStep_authDirExists, qrStep_authDirExists]⟩

/-- Witness for claim C2 at a concrete `restartRequired` (515) disconnect. -/
theorem disconnect_restart_codes_witness :
    (connectionUpdateHandler (fun q => Except.ok q) false "t0"
        ⟨none, some ⟨some ⟨some 515, none⟩⟩, none⟩ (initialState true)).2 =
      [Effect.scheduleRestart 2000] :=
  (disconnect_restart_codes_restart_2s_creds_untouched
    (fun q => Except.ok q) false "t0"
    ⟨none, some ⟨some ⟨some 515, none⟩⟩, none⟩ (initialState true)
    ⟨some ⟨some 515, none⟩⟩ ⟨some 515, none⟩ rfl rfl (Or.inl rfl)).1

/-- Claim C3: for every disconnect event carrying an error whose derived
reason code is not `badSession`, `loggedOut`, `restartRequired` or
`connectionClosed` — including an absent (`none`) or unknown code — the
handler schedules exactly one restart after 5000 ms, never runs the
credential deletion block, and leaves the credential store untouched. -/
theorem disconnect_other_reason_restarts_5s_creds_untouched
    (qrEncode : String → Except Unit String) (rmThrows : Bool) (now : String)
    (u : ConnectionUpdate) (s : GlobalState) (ld : LastDisconnect)
    (e : DisconnectError)
    (h1 : u.lastDisconnect = some ld) (h2 : ld.error = some e)
    (h3 : reasonCode e ≠ some DisconnectReason.badSession)
    (h4 : reasonCode e ≠ some DisconnectReason.loggedOut)
    (h5 : reasonCode e ≠ some DisconnectReason.restartRequired)
    (h6 : reasonCode e ≠ some DisconnectReason.connectionClosed) :
    (connectionUpdateHandler qrEncode rmThrows now u s).2 =
        [Effect.scheduleRestart 5000] ∧
    (connectionUpdateHandler qrEncode rmThrows now u s).2.count
        Effect.destroyCreds = 0 ∧
    (connectionUpdateHandler qrEncode rmThrows now u s).1.authDirExists
        = s.authDirExists := by
  rw [connectionUpdateHandler_eq,
    disconnectStep_other rmThrows u _ ld e h1 h2 h3 h4 h5 h6]
  exact ⟨rfl, rfl, by rw [connStep_authDirExists, qrStep_authDirExists]⟩

/-- Witness for claim C3 at a concrete disconnect whose error carries no
status code at all. -/
theorem disconnect_other_reason_witness :
    (connectionUpdateHandler (fun q => Except.ok q) false "t0"
        ⟨none, some ⟨some ⟨none, none⟩⟩, none⟩ (initialState true)).2 =
      [Effect.scheduleRestart 5000] :=
  (disconnect_other_reason_restarts_5s_creds_untouched
    (fun q => Except.ok q) false "t0"
    ⟨none, some ⟨some ⟨none, none⟩⟩, none⟩ (initialState true)
    ⟨some ⟨none, none⟩⟩ ⟨none, none⟩ rfl rfl
    (by decide) (by decide) (by decide) (by decide)).1

/-- Claim C4: the pairing snapshot starts empty, stays empty across any event
sequence carrying no pairing challenge, holds exactly the most recently
issued challenge after a successfully encoded pairing event (a new challenge
overwrites any previous snapshot), and is empty after any event reporting the
connection open. -/
theorem pairing_snapshot_invariant
    (qrEncode : String → Except Unit String) (rmThrows : Bool) :
    (∀ b : Bool, (initialState b).latestQRCodeDataUrl = none) ∧
    (∀ (events : List (String × ConnectionUpdate)) (s : GlobalState),
      (∀ p ∈ events, (p : String × ConnectionUpdate).2.qr = none) →
      s.latestQRCodeDataUrl = none →
      (runUpdates qrEncode rmThrows events s).latestQRCodeDataUrl = none) ∧
    (∀ (now : String) (u : ConnectionUpdate) (s : GlobalState) (q d : String),
      u.qr = some q → qrEncode q = Except.ok d → u.connection ≠ some "open" →
      (connectionUpdateHandler qrEncode rmThrows now u s).1.latestQRCodeDataUrl
        = some d) ∧
    (∀ (now : String) (u : ConnectionUpdate) (s : GlobalState),
      u.connection = some "open" →
      (connectionUpdateHandler qrEncode rmThrows now u s).1.latestQRCodeDataUrl
        = none) := by
  refine ⟨fun b => rfl, ?_, ?_, ?_⟩
  · intro events
    induction events with
    | nil => exact fun s _ h => h
    | cons p rest ih =>
      intro s hall h
      have hq : p.2.qr = none := hall p (List.mem_cons_self p rest)
      have step :
          (connectionUpdateHandler qrEncode rmThrows p.1 p.2
            s).1.latestQRCodeDataUrl = none := by
        rw [connectionUpdateHandler_eq]
        rcases disconnectStep_ui rmThrows p.2
            (connStep p.1 p.2 (qrStep qrEncode p.1 p.2 s)) with ⟨hd, -, -⟩
        rw [hd, qrStep_none qrEncode p.1 p.2 s hq]
        cases hc : p.2.connection with
        | none => rw [connStep_none _ _ _ hc]; exact h
        | some c =>
          by_cases hco : c = "open"
          · subst hco
            rw [connStep_open _ _ _ hc]
          · rw [connStep_notOpen _ _ _ _ hc hco]
            exact h
      rw [runUpdates_cons]
      exact ih _ (fun p2 hp => hall p2 (List.mem_cons_of_mem _ hp)) step
  · intro now u s q d hq hok hc
    rw [connectionUpdateHandler_eq]
    rcases disconnectStep_ui rmThrows u
        (connStep now u (qrStep qrEncode now u s)) with ⟨hd, -, -⟩
    rw [hd, qrStep_ok qrEncode now u s q d hq hok]
    cases hcc : u.connection with
    | none => rw [connStep_none _ _ _ hcc]
    | some c =>
      have hco : c ≠ "open" := fun hh => hc (hh ▸ hcc)
      rw [connStep_notOpen _ _ _ _ hcc hco]
  · intro now u s hc
    rw [connectionUpdateHandler_eq]
    rcases disconnectStep_ui rmThrows u
        (connStep now u (qrStep qrEncode now u s)) with ⟨hd, -, -⟩
    rw [hd, connStep_open now u _ hc]

/-- Witness for claim C4: a pairing event stores the freshly encoded
challenge, and a subsequent open event clears the snapshot. -/
theorem pairing_snapshot_invariant_witness :
    (connectionUpdateHandler (fun q => Except.ok q) false "t1"
        ⟨none, none, some "XYZ"⟩ (initialState true)).1.latestQRCodeDataUrl
      = some "XYZ" ∧
    (connectionUpdateHandler (fun q => Except.ok q) false "t2"
        ⟨some "open", none, none⟩ (initialState true)).1.latestQRCodeDataUrl
      = none :=
  ⟨(pairing_snapshot_invariant (fun q => Except.ok q) false).2.2.1 "t1"
      ⟨none, none, some "XYZ"⟩ (initialState true) "XYZ" "XYZ" rfl rfl
      (fun h => Option.noConfusion h),
    (pairing_snapshot_invariant (fun q => Except.ok q) false).2.2.2 "t2"
      ⟨some "open", none, none⟩ (initialState true) rfl⟩

/-- Claim C7: invoking the credential-store deletion when the store is
already absent raises no unhandled failure (in `index.js` the removal is
guarded by an existence check; in `part_000` the ENOENT from `unlinkSync` is
caught), and a deletion failure is logged while the 2000 ms restart is still
scheduled. -/
theorem delete_absent_store_safe_failure_logged_restart_proceeds
    (qrEncode : String → Except Unit String) (rmThrows : Bool) (now : String)
    (u : ConnectionUpdate) (s : GlobalState) (ld : LastDisconnect)
    (e : DisconnectError)
    (h1 : u.lastDisconnect = some ld) (h2 : ld.error = some e)
    (h3 : reasonCode e = some DisconnectReason.badSession ∨
          reasonCode e = some DisconnectReason.loggedOut) :
    rmAuthDirRaw rmThrows false = Except.ok false ∧
    destroyCredStoreSingle rmThrows false = (false, true) ∧
    destroyCredStore true true = (true, true) ∧
    Effect.scheduleRestart 2000 ∈
      (connectionUpdateHandler qrEncode rmThrows now u s).2 := by
  refine ⟨rfl, rfl, rfl, ?_⟩
  rw [connectionUpdateHandler_eq,
    disconnectStep_badSession rmThrows u _ ld e h1 h2 h3]
  simp

/-- Witness for claim C7 at a concrete `badSession` (500) disconnect with a
throwing removal. -/
theorem delete_absent_store_witness :
    Effect.scheduleRestart 2000 ∈
      (connectionUpdateHandler (fun q => Except.ok q) true "t0"
        ⟨none, some ⟨some ⟨some 500, none⟩⟩, none⟩ (initialState true)).2 :=
  (delete_absent_store_safe_failure_logged_restart_proceeds
    (fun q => Except.ok q) true "t0"
    ⟨none, some ⟨some ⟨some 500, none⟩⟩, none⟩ (initialState true)
    ⟨some ⟨some 500, none⟩⟩ ⟨some 500, none⟩ rfl rfl (Or.inl rfl)).2.2.2

/-- Claim C9: if encoding the pairing challenge into a data URL fails, the
failure is caught and the previous snapshot, its timestamp, and the
connection status are all left unchanged by the event (in particular the
status is not set to `qr-generated`). -/
theorem qr_encode_failure_preserves_state
    (qrEncode : String → Except Unit String) (rmThrows : Bool) (now : String)
    (u : ConnectionUpdate) (s : GlobalState) (q : String)
    (hq : u.qr = some q) (hf : qrEncode q = Except.error ())
    (hc : u.connection = none) :
    (connectionUpdateHandler qrEncode rmThrows now u s).1.latestQRCodeDataUrl
        = s.latestQRCodeDataUrl ∧
    (connectionUpdateHandler qrEncode rmThrows now u s).1.qrLastUpdated
        = s.qrLastUpdated ∧
    (connectionUpdateHandler qrEncode rmThrows now u s).1.connectionStatus
        = s.connectionStatus := by
  rw [connectionUpdateHandler_eq, qrStep_err qrEncode now u s q hq hf,
    connStep_none now u s hc]
  exact disconnectStep_ui rmThrows u s

/-- Witness for claim C9 at a concrete failing encoder. -/
theorem qr_encode_failure_witness :
    (connectionUpdateHandler (fun _ => Except.error ()) false "t0"
        ⟨none, none, some "XYZ"⟩ (initialState true)).1.connectionStatus
      = (initialState true).connectionStatus :=
  (qr_encode_failure_preserves_state (fun _ => Except.error ()) false "t0"
    ⟨none, none, some "XYZ"⟩ (initialState true) "XYZ" rfl rfl rfl).2.2

/-- Claim C10: on a connection event reporting `open`, the pairing image is
cleared to null while the pairing timestamp is overwritten with the fresh
current time, so the published snapshot exposes a timestamp with no live
pairing image. -/
theorem open_clears_image_but_refreshes_timestamp
    (qrEncode : String → Except Unit String) (rmThrows : Bool) (now : String)
    (u : ConnectionUpdate) (s : GlobalState)
    (hc : u.connection = some "open") :
    (connectionUpdateHandler qrEncode rmThrows now u s).1.latestQRCodeDataUrl
        = none ∧
    (connectionUpdateHandler qrEncode rmThrows now u s).1.qrLastUpdated
        = some now := by
  rw [connectionUpdateHandler_eq]
  rcases disconnectStep_ui rmThrows u
      (connStep now u (qrStep qrEncode now u s)) with ⟨hd1, hd2, -⟩
  rw [hd1, hd2, connStep_open now u _ hc]
  exact ⟨rfl, rfl⟩

/-- Witness for claim C10 at a concrete open event. -/
theorem open_clears_image_witness :
    (connectionUpdateHandler (fun q => Except.ok q) false "t3"
        ⟨some "open", none, none⟩ (initialState true)).1.qrLastUpdated
      = some "t3" :=
  (open_clears_image_but_refreshes_timestamp (fun q => Except.ok q) false "t3"
    ⟨some "open", none, none⟩ (initialState true) rfl).2

/-- Claim C5: on every failing outcome of the remote version lookup (a
thrown error, or a result without a version array), the resolution step
returns the hardcoded fallback `[2, 2204, 13]`, and when the remaining
startup steps succeed the socket is constructed with exactly that fallback
version. -/
theorem version_lookup_failure_uses_fallback
    (env : StartEnv) (s : GlobalState)
    (hf : env.fetchResult = Except.error () ∨
          env.fetchResult = Except.ok none) :
    resolveVersion env.fetchResult = [2, 2204, 13] ∧
    (env.authLoadThrows = false → env.socketThrows = false →
      (startSocket env s).2.1 = StartOutcome.started [2, 2204, 13]) := by
  have hv : resolveVersion env.fetchResult = [2, 2204, 13] := by
    rcases hf with h | h <;> rw [h] <;> rfl
  refine ⟨hv, fun ha hs => ?_⟩
  simp [startSocket, ha, hs, hv]

/-- Witness for claim C5 at a concrete throwing lookup. -/
theorem version_lookup_failure_witness :
    (startSocket ⟨Except.error (), false, false⟩ (initialState false)).2.1
      = StartOutcome.started [2, 2204, 13] :=
  (version_lookup_failure_uses_fallback ⟨Except.error (), false, false⟩
    (initialState false) (Or.inl rfl)).2 rfl rfl

/-- Claim C6: if the start function itself throws — the credential load or
the socket construction fails — the outer catch logs the failure and
schedules a retry of the start function after 5000 ms, exactly the long
delay used for an unclassified disconnect reason. -/
theorem start_failure_logged_and_retried_after_5s
    (env : StartEnv) (s : GlobalState)
    (h : env.authLoadThrows = true ∨ env.socketThrows = true) :
    (startSocket env s).2.1 = StartOutcome.retryScheduled ∧
    (startSocket env s).2.2 = [Effect.scheduleRestart 5000] := by
  rcases h with h | h
  · simp [startSocket, h]
  · cases hA : env.authLoadThrows <;> simp [startSocket, h, hA]

/-- Witness for claim C6 at a concrete failing socket construction. -/
theorem start_failure_witness :
    (startSocket ⟨Except.ok (some [2, 3000, 1]), false, true⟩
        (initialState false)).2.2 = [Effect.scheduleRestart 5000] :=
  (start_failure_logged_and_retried_after_5s
    ⟨Except.ok (some [2, 3000, 1]), false, true⟩ (initialState false)
    (Or.inr rfl)).2

/-- Claim C8 counterexample: the claim says every failure path — including
credential persistence — is logged and handled.  But both files register the
persistence callback bare (`sock.ev.on('creds.update', saveCreds)`, with no
try-catch and no logging), and `part_000` calls its credential load at module
scope outside any try, so on these two paths a failure propagates uncaught
and unlogged. -/
theorem credential_persistence_failure_uncaught :
    credsUpdateListener (Except.error ()) = Except.error () ∧
    moduleInitAuthLoad (Except.error ()) = Except.error () :=
  ⟨rfl, rfl⟩

/-- Claim C8 (amended): no failure modelled inside the start function or the
registered `connection.update` and `messages.upsert` listeners escapes: the
start function either emits no effect or a single 5000 ms restart, and both
listeners always return normally (their bodies never propagate an error). -/
theorem no_modelled_failure_escapes_listeners_or_start
    (env : StartEnv) (s : GlobalState) (bodyThrows : Bool)
    (qrEncode : String → Except Unit String) (rmThrows : Bool) (now : String)
    (u : ConnectionUpdate) (st : GlobalState) :
    ((startSocket env s).2.2 = [] ∨
      (startSocket env s).2.2 = [Effect.scheduleRestart 5000]) ∧
    messagesUpsertHandler bodyThrows = Except.ok () ∧
    connectionUpdateRaw qrEncode rmThrows now u st =
      Except.ok (connectionUpdateHandler qrEncode rmThrows now u st) := by
  refine ⟨?_, ?_, rfl⟩
  · cases hA : env.authLoadThrows <;> cases hS : env.socketThrows <;>
      simp [startSocket, hA, hS]
  · cases bodyThrows <;> rfl

end Chrisbot
